import Mathlib

/-!
Shallow embedding of the BankService ledger endpoints (`src/main.py`),
the pydantic request schemas (`src/schemas/account.py`) and the ORM
entities (`src/models/account.py`, `src/models/card.py`).

Modelling conventions:
* Monetary values are rationals (`Rat`); the source uses Python floats,
  but no claim depends on floating-point rounding.
* Server-generated randomness (account numbers, reference numbers, card
  numbers, CVVs, expiry dates) is omitted: no claim mentions it.
* Timestamps are naturals drawn from a logical clock in the database
  state; `func.now()` assigns the commit-time clock value.
* A database is a record of entity lists plus id counters; SQLAlchemy
  primary keys are modelled as the `id` fields, auto-increment as the
  `next...Id` counters.
* An endpoint is a function `... → DB → Except Err (α × DB)`; an
  `Except.error` result models an aborted request (HTTPException or a
  pydantic 422), after which the database is unchanged.
-/

/-- `core/enums/transaction.py`: `TransactionType(str, Enum)`. -/
inductive TransactionType where
  | CREDIT
  | DEBIT
deriving DecidableEq

/-- The `str` value of the enum member: `CREDIT = "CREDIT"`, `DEBIT = "DEBIT"`.
In Python the member is a `str` subclass equal to this value, so comparisons
of a member against a string literal compare these strings. -/
def TransactionType.value : TransactionType → String
  | .CREDIT => "CREDIT"
  | .DEBIT => "DEBIT"

/-- `core/enums/account_type.py`: `AccountType(str, Enum)`. -/
inductive AccountType where
  | CHECKING
  | SAVINGS
  | BUSINESS
deriving DecidableEq

/-- `core/enums/cards.py`: `CardType(str, Enum)`. -/
inductive CardType where
  | DEBIT
  | CREDIT
deriving DecidableEq

/-- `core/enums/cards.py`: `CardStatus(str, Enum)`. -/
inductive CardStatus where
  | ACTIVE
  | BLOCKED
  | EXPIRED
deriving DecidableEq

/-- `models/account.py` `Account` row: id (primary key), `user_id`,
`account_type`, `balance` (`Float, default=0.0`).  The random
`account_number`, the `is_active` flag and the audit timestamps are
omitted (no claim touches them). -/
structure Account where
  id : Nat
  user_id : Nat
  account_type : AccountType
  balance : Rat
deriving DecidableEq

/-- `models/account.py` `Transaction` row.  `transaction_type` stores the
string value of the `TransactionType` enum column; the random
`reference_number` is omitted. -/
structure Transaction where
  id : Nat
  account_id : Nat
  transaction_type : String
  amount : Rat
  description : Option String
  timestamp : Nat
deriving DecidableEq

/-- `models/account.py` `Transfer` row (random `reference_number` omitted). -/
structure Transfer where
  id : Nat
  from_account_id : Nat
  to_account_id : Nat
  amount : Rat
  description : Option String
  timestamp : Nat
deriving DecidableEq

/-- `models/card.py` `Card` row (random `card_number`/`cvv` and the
`expiry_date` are omitted; `status` defaults to `ACTIVE` via the column
default). -/
structure Card where
  id : Nat
  account_id : Nat
  card_type : CardType
  status : CardStatus
  credit_limit : Option Rat
deriving DecidableEq

/-- The persistent state behind a SQLAlchemy session: the four tables,
auto-increment counters for primary keys, and the logical clock used for
`func.now()` timestamps. -/
structure DB where
  accounts : List Account
  transactions : List Transaction
  transfers : List Transfer
  cards : List Card
  nextAccountId : Nat
  nextTxnId : Nat
  nextTransferId : Nat
  nextCardId : Nat
  clock : Nat
deriving DecidableEq

/-- The empty database produced by `init_database`. -/
def DB.empty : DB :=
  { accounts := [], transactions := [], transfers := [], cards := []
    nextAccountId := 0, nextTxnId := 0, nextTransferId := 0, nextCardId := 0
    clock := 0 }

/-- Failure modes a request can surface: `notFound` is
`HTTPException(404, detail)`, `badRequest` is `HTTPException(400, detail)`,
and `unprocessable` is FastAPI's 422 carrying the pydantic validation
error messages. -/
inductive Err where
  | notFound (detail : String)
  | badRequest (detail : String)
  | unprocessable (messages : List String)
deriving DecidableEq

/-- Database state observable after a request: the `ok` state on success,
the original state when the request aborted (the session never committed). -/
def stateAfter {α : Type} (db : DB) : Except Err (α × DB) → DB
  | .ok (_, db') => db'
  | .error _ => db

/-- Whether a request succeeded (HTTP 200). -/
def isOk {α : Type} : Except Err (α × DB) → Bool
  | .ok _ => true
  | .error _ => false

/-- Balance of the (unique, `id` being a primary key) account with the
given id, if present. -/
def balanceOf (db : DB) (aid : Nat) : Option Rat :=
  (db.accounts.find? (fun a => a.id == aid)).map (fun a => a.balance)

/-- Python's `x or d` for an optional float `x`: `None` and `0.0` are
falsy and give `d`, any other value gives itself.
(`main.py` line 119: `balance=account_create.initial_balance or 0.0`.) -/
def pyOr (x : Option Rat) (d : Rat) : Rat :=
  match x with
  | none => d
  | some v => if v = 0 then d else v

/-- Python's f-string rendering of an optional string: `None` prints as
`"None"`. -/
def pyStrOpt : Option String → String
  | some s => s
  | none => "None"

/-- `schemas/account.py` `AccountCreate`: `account_type` plus
`initial_balance: Optional[float] = 0.0`.  NOTE: the schema declares no
validator, so any float — negative included — passes validation. -/
structure AccountCreate where
  account_type : AccountType
  initial_balance : Option Rat

/-- `schemas/account.py` `TransactionCreate`. -/
structure TransactionCreate where
  transaction_type : TransactionType
  amount : Rat
  description : Option String

/-- `schemas/account.py` `TransferCreate`. -/
structure TransferCreate where
  from_account_id : Nat
  to_account_id : Nat
  amount : Rat
  description : Option String

/-- `schemas/account.py` `CardCreate`: `card_type` plus
`credit_limit: Optional[float] = 0.0`; no validator is declared. -/
structure CardCreate where
  card_type : CardType
  credit_limit : Option Rat

/-- Pydantic validation of `TransactionCreate`: the `validate_amount`
validator rejects `amount <= 0` with message `'Amount must be positive'`.
Returns the list of validation error messages (empty = valid). -/
def validateTransactionCreate (tc : TransactionCreate) : List String :=
  if tc.amount ≤ 0 then ["Amount must be positive"] else []

/-- Pydantic validation of `TransferCreate`: fields are validated in
declaration order, so `validate_different_accounts` (on `to_account_id`)
reports before `validate_amount` (on `amount`); all failing validators
contribute a message. -/
def validateTransferCreate (t : TransferCreate) : List String :=
  (if t.to_account_id = t.from_account_id
    then ["Cannot transfer to the same account"] else []) ++
  (if t.amount ≤ 0 then ["Amount must be positive"] else [])

/-- `main.py` `create_account` (lines 111-126): builds an `Account` for the
current user with `balance = account_create.initial_balance or 0.0`, adds
and commits it, and returns it.  It cannot fail (no validation is
performed on the balance). -/
def create_account (uid : Nat) (ac : AccountCreate) (db : DB) : Account × DB :=
  let account : Account :=
    { id := db.nextAccountId
      user_id := uid
      account_type := ac.account_type
      balance := pyOr ac.initial_balance 0 }
  (account,
    { db with
        accounts := db.accounts ++ [account]
        nextAccountId := db.nextAccountId + 1 })

/-- `main.py` `get_account` (lines 139-152): looks the account up by
`id == account_id AND user_id == current_user.id`; 404 `"Account not
found"` when the filter matches nothing — whether the account is absent
or belongs to another user. -/
def get_account (account_id uid : Nat) (db : DB) : Except Err (Account × DB) :=
  match db.accounts.find? (fun a => a.id == account_id && a.user_id == uid) with
  | none => .error (.notFound "Account not found")
  | some account => .ok (account, db)

/-- Replace the balance of the row with primary key `aid` by `f` of it
(the ORM mutation `account.balance += / -= amount` on the fetched row). -/
def updAcc (accs : List Account) (aid : Nat) (f : Rat → Rat) : List Account :=
  accs.map (fun a => if a.id = aid then { a with balance := f a.balance } else a)

/-- `main.py` `create_transaction` (lines 157-193), after pydantic
validation.  Faithful to the source:
* the insufficient-funds guard compares the enum member (whose string
  value is upper-case `"CREDIT"`/`"DEBIT"`) against the lower-case
  literal `"debit"`;
* the balance update compares against the lower-case literal `"credit"`
  and subtracts in the `else` branch. -/
def create_transaction (account_id uid : Nat) (tc : TransactionCreate) (db : DB) :
    Except Err (Transaction × DB) :=
  match db.accounts.find? (fun a => a.id == account_id && a.user_id == uid) with
  | none => .error (.notFound "Account not found")
  | some account =>
    if tc.transaction_type.value = "debit" ∧ account.balance < tc.amount then
      .error (.badRequest "Insufficient funds")
    else
      let transaction : Transaction :=
        { id := db.nextTxnId
          account_id := account_id
          transaction_type := tc.transaction_type.value
          amount := tc.amount
          description := tc.description
          timestamp := db.clock }
      let accounts' :=
        if tc.transaction_type.value = "credit" then
          updAcc db.accounts account_id (fun b => b + tc.amount)
        else
          updAcc db.accounts account_id (fun b => b - tc.amount)
      .ok (transaction,
        { db with
            accounts := accounts'
            transactions := db.transactions ++ [transaction]
            nextTxnId := db.nextTxnId + 1
            clock := db.clock + 1 })

/-- POST `/accounts/{account_id}/transactions`: pydantic validation of the
body, then the `create_transaction` handler. -/
def post_account_transactions (account_id uid : Nat) (tc : TransactionCreate)
    (db : DB) : Except Err (Transaction × DB) :=
  match validateTransactionCreate tc with
  | [] => create_transaction account_id uid tc db
  | msgs => .error (.unprocessable msgs)

/-- `main.py` `create_transfer` (lines 221-278), after pydantic validation:
source looked up by id and owner, destination by id only; insufficient
funds when `source.balance < amount`; otherwise debit source, credit
destination, and commit one `Transfer` plus a DEBIT `Transaction` on the
source and a CREDIT `Transaction` on the destination. -/
def create_transfer (uid : Nat) (t : TransferCreate) (db : DB) :
    Except Err (Transfer × DB) :=
  match db.accounts.find? (fun a => a.id == t.from_account_id && a.user_id == uid) with
  | none => .error (.notFound "Source account not found")
  | some source_account =>
    match db.accounts.find? (fun a => a.id == t.to_account_id) with
    | none => .error (.notFound "Destination account not found")
    | some _ =>
      if source_account.balance < t.amount then
        .error (.badRequest "Insufficient funds")
      else
        let transfer : Transfer :=
          { id := db.nextTransferId
            from_account_id := t.from_account_id
            to_account_id := t.to_account_id
            amount := t.amount
            description := t.description
            timestamp := db.clock }
        let accounts1 := updAcc db.accounts t.from_account_id (fun b => b - t.amount)
        let accounts2 := updAcc accounts1 t.to_account_id (fun b => b + t.amount)
        let debit_transaction : Transaction :=
          { id := db.nextTxnId
            account_id := t.from_account_id
            transaction_type := TransactionType.DEBIT.value
            amount := t.amount
            description := some ("Transfer to account " ++
              toString t.to_account_id ++ ": " ++ pyStrOpt t.description)
            timestamp := db.clock }
        let credit_transaction : Transaction :=
          { id := db.nextTxnId + 1
            account_id := t.to_account_id
            transaction_type := TransactionType.CREDIT.value
            amount := t.amount
            description := some ("Transfer from account " ++
              toString t.from_account_id ++ ": " ++ pyStrOpt t.description)
            timestamp := db.clock }
        .ok (transfer,
          { db with
              accounts := accounts2
              transfers := db.transfers ++ [transfer]
              transactions := db.transactions ++ [debit_transaction, credit_transaction]
              nextTxnId := db.nextTxnId + 2
              nextTransferId := db.nextTransferId + 1
              clock := db.clock + 1 })

/-- POST `/transfers`: pydantic validation of the body, then the
`create_transfer` handler. -/
def post_transfers (uid : Nat) (t : TransferCreate) (db : DB) :
    Except Err (Transfer × DB) :=
  match validateTransferCreate t with
  | [] => create_transfer uid t db
  | msgs => .error (.unprocessable msgs)

/-- `main.py` `get_account_transactions` (lines 197-216): ownership check,
then the account's transactions in storage order after `offset(skip)`
and `limit(limit)`.  The route defaults are `skip = 0`, `limit = 100`.
Read-only: the returned state equals the input state. -/
def get_account_transactions (account_id : Nat) (skip limit : Nat) (uid : Nat)
    (db : DB) : Except Err (List Transaction × DB) :=
  match db.accounts.find? (fun a => a.id == account_id && a.user_id == uid) with
  | none => .error (.notFound "Account not found")
  | some _ =>
    .ok (((db.transactions.filter (fun t => t.account_id == account_id)).drop skip).take limit, db)

/-- `main.py` `create_card` (lines 300-329): ownership check, then a card
is built with exactly the requested `card_type` and `credit_limit` (no
validation), added and committed. -/
def create_card (account_id uid : Nat) (cc : CardCreate) (db : DB) :
    Except Err (Card × DB) :=
  match db.accounts.find? (fun a => a.id == account_id && a.user_id == uid) with
  | none => .error (.notFound "Account not found")
  | some _ =>
    let card : Card :=
      { id := db.nextCardId
        account_id := account_id
        card_type := cc.card_type
        status := .ACTIVE
        credit_limit := cc.credit_limit }
    .ok (card,
      { db with
          cards := db.cards ++ [card]
          nextCardId := db.nextCardId + 1 })

/-- Insertion step of the `ORDER BY timestamp DESC` modelling: place `t`
before the first element with a strictly smaller timestamp. -/
def insertTsDesc (t : Transaction) : List Transaction → List Transaction
  | [] => [t]
  | u :: us =>
    if u.timestamp ≤ t.timestamp then t :: u :: us else u :: insertTsDesc t us

/-- Sort a transaction list by timestamp, descending. -/
def sortTsDesc (l : List Transaction) : List Transaction :=
  l.foldr insertTsDesc []

/-- `main.py` `get_account_statement` (lines 352-378): ownership check,
then the account's transactions successively filtered by
`timestamp >= start` (when a start date is given) and `timestamp <= end`
(when an end date is given), ordered by timestamp descending.  Read-only. -/
def get_account_statement (account_id uid : Nat) (start_date end_date : Option Nat)
    (db : DB) : Except Err (List Transaction × DB) :=
  match db.accounts.find? (fun a => a.id == account_id && a.user_id == uid) with
  | none => .error (.notFound "Account not found")
  | some _ =>
    let q := db.transactions.filter (fun t => t.account_id == account_id)
    let q := match start_date with
      | some s => q.filter (fun t => s ≤ t.timestamp)
      | none => q
    let q := match end_date with
      | some e => q.filter (fun t => t.timestamp ≤ e)
      | none => q
    .ok (sortTsDesc q, db)

/-! ### Concrete fixtures -/

/-- A database holding one CHECKING account, id 0, owned by user 1, with
balance 100. -/
def dbAcc100 : DB :=
  (create_account 1 { account_type := .CHECKING, initial_balance := some 100 } DB.empty).2

/-- A database holding one CHECKING account, id 0, owned by user 1, with
balance 1000. -/
def dbAcc1000 : DB :=
  (create_account 1 { account_type := .CHECKING, initial_balance := some 1000 } DB.empty).2

/-- Result of posting a DEBIT of 500 against the balance-100 account. -/
def rDebit500 : Except Err (Transaction × DB) :=
  post_account_transactions 0 1
    { transaction_type := .DEBIT, amount := 500, description := none } dbAcc100

/-- Result of posting a CREDIT of 250 against the balance-1000 account. -/
def rCredit250 : Except Err (Transaction × DB) :=
  post_account_transactions 0 1
    { transaction_type := .CREDIT, amount := 250, description := none } dbAcc1000

/-- C1: the balance-nonnegativity invariant fails on the code.  Creating an
account with balance 100 and then posting an accepted DEBIT of 500 leaves
the balance at -400 < 0: the guard in `create_transaction` compares the
enum value `"DEBIT"` against the lower-case literal `"debit"`, so it never
fires. -/
theorem debit_overdraft_breaks_nonnegative_invariant :
    isOk rDebit500 = true ∧
    balanceOf (stateAfter dbAcc100 rDebit500) 0 = some (-400) ∧
    ((-400 : Rat) < 0) := by
  norm_num +decide [rDebit500, dbAcc100, post_account_transactions, validateTransactionCreate,
    create_transaction, create_account, DB.empty, pyOr, TransactionType.value,
    updAcc, balanceOf, stateAfter, isOk, List.find?]

/-- C2: refuted on the code for CREDIT.  A successful CREDIT of 250 on a
balance of 1000 leaves 750, not 1250: the update compares the enum value
`"CREDIT"` against the lower-case literal `"credit"`, so every
transaction takes the subtracting `else` branch. -/
theorem credit_transaction_subtracts_amount :
    isOk rCredit250 = true ∧
    balanceOf (stateAfter dbAcc1000 rCredit250) 0 = some 750 ∧
    some (750 : Rat) ≠ some (1000 + 250 : Rat) := by
  norm_num +decide [rCredit250, dbAcc1000, post_account_transactions, validateTransactionCreate,
    create_transaction, create_account, DB.empty, pyOr, TransactionType.value,
    updAcc, balanceOf, stateAfter, isOk, List.find?]

/-- C3: refuted on the code.  A DEBIT of 500 on an owned account with
balance 100 is not rejected with `"Insufficient funds"`; it succeeds and
drives the balance to -400, so the balance does not remain 100. -/
theorem overdraft_debit_not_rejected :
    rDebit500 ≠ .error (.badRequest "Insufficient funds") ∧
    isOk rDebit500 = true ∧
    balanceOf (stateAfter dbAcc100 rDebit500) 0 ≠ some 100 := by
  refine ⟨?_, ?_⟩
  · norm_num +decide [rDebit500, dbAcc100, post_account_transactions, validateTransactionCreate,
      create_transaction, create_account, DB.empty, pyOr, TransactionType.value,
      updAcc, List.find?]
    simp
  norm_num +decide [rDebit500, dbAcc100, post_account_transactions, validateTransactionCreate,
    create_transaction, create_account, DB.empty, pyOr, TransactionType.value,
    updAcc, balanceOf, stateAfter, isOk, List.find?]

/-! ### C5: create_account performs no initial-balance validation -/

/-- Result of creating an account with initial balance -5. -/
def rAccNeg : Account × DB :=
  create_account 1 { account_type := .CHECKING, initial_balance := some (-5) } DB.empty

/-- C5 counterexample: `CreateAccount(initialBalance = -5)` does not fail —
an account with balance -5 is persisted and returned, so the claimed
`InvalidAmount` rejection does not exist in the code. -/
theorem create_account_accepts_negative_balance :
    rAccNeg.2.accounts = [rAccNeg.1] ∧
    rAccNeg.1.balance = -5 ∧
    ((-5 : Rat) < 0) := by
  norm_num +decide [rAccNeg, create_account, DB.empty, pyOr]

/-- Python's `initial_balance or 0.0` coincides with `Option.getD 0`:
`None` gives the default and `0.0` is sent to itself. -/
theorem pyOr_getD (x : Option Rat) : pyOr x 0 = x.getD 0 := by
  cases x with
  | none => rfl
  | some v =>
    by_cases h : v = 0
    · simp [pyOr, h]
    · simp [pyOr, h]

/-- C5 amended: `create_account` never validates `initial_balance`; for
every request it persists and returns an account owned by the caller
whose balance is exactly the requested initial balance (0 when omitted),
negative values included. -/
theorem create_account_persists_requested_balance (uid : Nat) (ac : AccountCreate)
    (db : DB) :
    (create_account uid ac db).1.balance = ac.initial_balance.getD 0 ∧
    (create_account uid ac db).2.accounts = db.accounts ++ [(create_account uid ac db).1] ∧
    (create_account uid ac db).1.user_id = uid := by
  refine ⟨?_, rfl, rfl⟩
  simp [create_account, pyOr_getD]

/-! ### C6: create_card performs no credit-limit validation -/

/-- Result of issuing a CREDIT card with credit limit -100 on the owned
account of `dbAcc100`. -/
def rCardNeg : Except Err (Card × DB) :=
  create_card 0 1 { card_type := .CREDIT, credit_limit := some (-100) } dbAcc100

/-- The card returned by a card-creation request, if it succeeded. -/
def cardOf (r : Except Err (Card × DB)) : Option Card :=
  match r with
  | .ok (c, _) => some c
  | .error _ => none

/-- C6 counterexample: `CreateCard(creditLimit = -100)` on an owned account
does not fail — the card is persisted with credit limit -100. -/
theorem create_card_accepts_negative_limit :
    isOk rCardNeg = true ∧
    (stateAfter dbAcc100 rCardNeg).cards.length = 1 ∧
    (cardOf rCardNeg).map (fun c => c.credit_limit) = some (some (-100)) ∧
    ((-100 : Rat) < 0) := by
  norm_num +decide [rCardNeg, create_card, dbAcc100, create_account, DB.empty,
    pyOr, cardOf, stateAfter, isOk, List.find?]

/-- C6 amended: `create_card` never validates `credit_limit`; whenever the
ownership lookup succeeds, a card bound to the account is persisted and
returned carrying exactly the requested credit limit, negative values
included. -/
theorem create_card_persists_requested_limit (aid uid : Nat) (cc : CardCreate)
    (db : DB) (acc : Account)
    (hfind : db.accounts.find? (fun a => a.id == aid && a.user_id == uid) = some acc) :
    ∃ c db', create_card aid uid cc db = .ok (c, db') ∧
      c.credit_limit = cc.credit_limit ∧
      c.account_id = aid ∧
      db'.cards = db.cards ++ [c] := by
  unfold create_card
  rw [hfind]
  exact ⟨_, _, rfl, rfl, rfl, rfl⟩

/-- Instantiation of the C6 amended theorem: issuing a card with credit
limit -100 on the concrete one-account database succeeds. -/
theorem create_card_persists_requested_limit_witness :
    dbAcc100.accounts.find? (fun a => a.id == 0 && a.user_id == 1) =
      some { id := 0, user_id := 1, account_type := .CHECKING, balance := 100 } ∧
    (∃ c db',
      create_card 0 1 { card_type := .CREDIT, credit_limit := some (-100) } dbAcc100 =
        .ok (c, db') ∧
      c.credit_limit = some (-100) ∧
      c.account_id = 0 ∧
      db'.cards = dbAcc100.cards ++ [c]) :=
  ⟨by norm_num +decide [dbAcc100, create_account, DB.empty, pyOr, List.find?],
   create_card_persists_requested_limit 0 1 _ dbAcc100
    { id := 0, user_id := 1, account_type := .CHECKING, balance := 100 }
    (by norm_num +decide [dbAcc100, create_account, DB.empty, pyOr, List.find?])⟩

/-! ### C7: cross-user access is reported exactly like a missing account -/

/-- C7: whenever no account with the given id is owned by the caller —
because the account does not exist or because it belongs to a different
user — `get_account` and `create_transaction` fail with the very same
404 error `"Account not found"`; no distinct Forbidden error exists in
the code. -/
theorem cross_user_access_reported_as_not_found (aid uid : Nat)
    (tc : TransactionCreate) (db : DB)
    (h : ∀ a ∈ db.accounts, a.id = aid → a.user_id ≠ uid) :
    get_account aid uid db = .error (.notFound "Account not found") ∧
    create_transaction aid uid tc db = .error (.notFound "Account not found") := by
  have hfind : db.accounts.find? (fun a => a.id == aid && a.user_id == uid) = none := by
    rw [List.find?_eq_none]
    intro a ha
    simp only [Bool.and_eq_true, beq_iff_eq, not_and]
    exact h a ha
  constructor
  · unfold get_account
    rw [hfind]
  · unfold create_transaction
    rw [hfind]

/-- A database holding a single account, id 1, owned by user 2. -/
def dbOther : DB :=
  { DB.empty with
      accounts := [{ id := 1, user_id := 2, account_type := .CHECKING, balance := 7 }] }

/-- Instantiation of the C7 theorem: user 1 requesting account 1, which
exists but belongs to user 2, receives the 404 `"Account not found"`. -/
theorem cross_user_access_reported_as_not_found_witness :
    (∀ a ∈ dbOther.accounts, a.id = 1 → a.user_id ≠ 1) ∧
    (get_account 1 1 dbOther = .error (.notFound "Account not found") ∧
     create_transaction 1 1
       { transaction_type := .DEBIT, amount := 5, description := none } dbOther =
       .error (.notFound "Account not found")) :=
  ⟨by decide, cross_user_access_reported_as_not_found 1 1 _ dbOther (by decide)⟩

/-! ### C9: same-account transfers are rejected by schema validation -/

/-- C9: every transfer request whose source account equals its destination
account is rejected by the pydantic validator with the message
`"Cannot transfer to the same account"`; the handler never runs, so the
database is unchanged. -/
theorem same_account_transfer_rejected (uid : Nat) (t : TransferCreate) (db : DB)
    (h : t.from_account_id = t.to_account_id) :
    (∃ msgs, post_transfers uid t db = .error (.unprocessable msgs) ∧
      "Cannot transfer to the same account" ∈ msgs) ∧
    stateAfter db (post_transfers uid t db) = db := by
  have hv : validateTransferCreate t =
      "Cannot transfer to the same account" ::
        (if t.amount ≤ 0 then ["Amount must be positive"] else []) := by
    simp [validateTransferCreate, h]
  have hp : post_transfers uid t db =
      .error (.unprocessable (validateTransferCreate t)) := by
    unfold post_transfers
    rw [hv]
  refine ⟨⟨validateTransferCreate t, hp, ?_⟩, by rw [hp]; rfl⟩
  rw [hv]
  exact List.mem_cons_self _ _

/-- Instantiation of the C9 theorem: transferring 50 from account 5 to
account 5 on the empty database is rejected with the same-account
message and leaves the database unchanged. -/
theorem same_account_transfer_rejected_witness :
    ({ from_account_id := 5, to_account_id := 5, amount := 50,
       description := none : TransferCreate }.from_account_id =
     { from_account_id := 5, to_account_id := 5, amount := 50,
       description := none : TransferCreate }.to_account_id) ∧
    ((∃ msgs,
        post_transfers 1
          { from_account_id := 5, to_account_id := 5, amount := 50,
            description := none } DB.empty =
          .error (.unprocessable msgs) ∧
        "Cannot transfer to the same account" ∈ msgs) ∧
      stateAfter DB.empty
        (post_transfers 1
          { from_account_id := 5, to_account_id := 5, amount := 50,
            description := none } DB.empty) = DB.empty) :=
  ⟨rfl, same_account_transfer_rejected 1 _ DB.empty rfl⟩

/-! ### C10: transaction listing is paginated in storage order -/

/-- C10: a successful `ListTransactions` call returns, unsorted and in
storage order, at most `limit` of the account's transactions after
skipping the first `skip`; consequently whenever the account has more
than `limit` matching transactions the returned page is strictly
smaller than the full list, so a single call (in particular with the
route defaults `skip = 0`, `limit = 100`) cannot return them all.  It
mutates no state. -/
theorem list_transactions_paginated (aid skip limit uid : Nat) (db : DB)
    (txns : List Transaction) (db' : DB)
    (hok : get_account_transactions aid skip limit uid db = .ok (txns, db')) :
    db' = db ∧
    txns = ((db.transactions.filter (fun t => t.account_id == aid)).drop skip).take limit ∧
    txns.length ≤ limit ∧
    (limit < (db.transactions.filter (fun t => t.account_id == aid)).length →
      txns.length < (db.transactions.filter (fun t => t.account_id == aid)).length) := by
  unfold get_account_transactions at hok
  cases hfind : db.accounts.find? (fun a => a.id == aid && a.user_id == uid) with
  | none => rw [hfind] at hok; exact absurd hok (by simp)
  | some acc =>
    rw [hfind] at hok
    simp only [Except.ok.injEq, Prod.mk.injEq] at hok
    obtain ⟨htx, hdb⟩ := hok
    have hlen : txns.length ≤ limit := by
      rw [← htx, List.length_take]
      exact Nat.min_le_left ..
    exact ⟨hdb.symm, htx.symm, hlen,
      fun hlt => Nat.lt_of_le_of_lt hlen hlt⟩

/-- A transaction record used in concrete fixtures. -/
def tx (i aid ts : Nat) : Transaction :=
  { id := i, account_id := aid, transaction_type := "CREDIT", amount := 10,
    description := none, timestamp := ts }

/-- A database with one account (id 0, user 1) and four transactions, three
of them on account 0. -/
def dbTx : DB :=
  { DB.empty with
      accounts := [{ id := 0, user_id := 1, account_type := .CHECKING, balance := 100 }]
      transactions := [tx 0 0 0, tx 1 0 1, tx 2 1 2, tx 3 0 2]
      nextAccountId := 1
      nextTxnId := 4
      clock := 3 }

/-- Instantiation of the C10 theorem: listing account 0 with `skip = 1`,
`limit = 2` returns the second and third stored transactions. -/
theorem list_transactions_paginated_witness :
    get_account_transactions 0 1 2 1 dbTx = .ok ([tx 1 0 1, tx 3 0 2], dbTx) ∧
    (dbTx = dbTx ∧
     [tx 1 0 1, tx 3 0 2] =
       ((dbTx.transactions.filter (fun t => t.account_id == 0)).drop 1).take 2 ∧
     [tx 1 0 1, tx 3 0 2].length ≤ 2 ∧
     (2 < (dbTx.transactions.filter (fun t => t.account_id == 0)).length →
       [tx 1 0 1, tx 3 0 2].length <
         (dbTx.transactions.filter (fun t => t.account_id == 0)).length)) :=
  ⟨rfl, list_transactions_paginated 0 1 2 1 dbTx _ _ rfl⟩

/-! ### C8: statements are the time-filtered transactions, newest first -/

/-- Inserting a transaction adds exactly that element: the result is a
permutation of consing it. -/
theorem insertTsDesc_perm (t : Transaction) (l : List Transaction) :
    (insertTsDesc t l).Perm (t :: l) := by
  induction l with
  | nil => simp [insertTsDesc]
  | cons u us ih =>
    simp only [insertTsDesc]
    split
    · exact List.Perm.refl _
    · exact (ih.cons u).trans (List.Perm.swap t u us)

/-- The descending sort is a permutation of its input. -/
theorem sortTsDesc_perm (l : List Transaction) : (sortTsDesc l).Perm l := by
  induction l with
  | nil => simp [sortTsDesc]
  | cons t ts ih => exact (insertTsDesc_perm t (sortTsDesc ts)).trans (ih.cons t)

/-- Inserting into a list sorted by descending timestamp keeps it sorted. -/
theorem insertTsDesc_pairwise (t : Transaction) (l : List Transaction)
    (h : l.Pairwise (fun a b => b.timestamp ≤ a.timestamp)) :
    (insertTsDesc t l).Pairwise (fun a b => b.timestamp ≤ a.timestamp) := by
  induction l with
  | nil => simp [insertTsDesc]
  | cons u us ih =>
    rw [List.pairwise_cons] at h
    obtain ⟨hu, hus⟩ := h
    simp only [insertTsDesc]
    split
    case isTrue hle =>
      refine List.Pairwise.cons ?_ (List.Pairwise.cons hu hus)
      intro b hb
      rcases List.mem_cons.mp hb with rfl | hbus
      · exact hle
      · exact Nat.le_trans (hu b hbus) hle
    case isFalse hgt =>
      refine List.Pairwise.cons ?_ (ih hus)
      intro b hb
      rcases List.mem_cons.mp ((insertTsDesc_perm t us).mem_iff.mp hb) with rfl | hbus
      · exact Nat.le_of_lt (Nat.not_le.mp hgt)
      · exact hu b hbus

/-- The descending sort is sorted: each element's timestamp dominates all
later ones. -/
theorem sortTsDesc_pairwise (l : List Transaction) :
    (sortTsDesc l).Pairwise (fun a b => b.timestamp ≤ a.timestamp) := by
  induction l with
  | nil => simp [sortTsDesc]
  | cons t ts ih => exact insertTsDesc_pairwise t (sortTsDesc ts) ih

/-- Three chained filters collapse to one conjunctive filter. -/
theorem filter_chain3 (l : List Transaction) (pa ps pe : Transaction → Bool) :
    List.filter pe (List.filter ps (List.filter pa l)) =
      List.filter (fun t => pa t && (ps t && pe t)) l := by
  rw [List.filter_filter, List.filter_filter]
  apply List.filter_congr
  intro x _
  cases pa x <;> cases ps x <;> cases pe x <;> rfl

/-- Two chained filters collapse to one conjunctive filter. -/
theorem filter_chain2 (l : List Transaction) (pa p2 : Transaction → Bool) :
    List.filter p2 (List.filter pa l) = List.filter (fun t => pa t && p2 t) l := by
  rw [List.filter_filter]
  apply List.filter_congr
  intro x _
  cases pa x <;> cases p2 x <;> rfl

/-- The statement contents as the spec words them (spec-side definition,
for comparison with the source's chained query): all of the account's
transactions with timestamp at least the start bound (when given) and at
most the end bound (when given). -/
def specStatementTxns (db : DB) (aid : Nat) (sd ed : Option Nat) : List Transaction :=
  db.transactions.filter (fun t =>
    t.account_id == aid &&
    ((match sd with | some s => decide (s ≤ t.timestamp) | none => true) &&
     (match ed with | some e => decide (t.timestamp ≤ e) | none => true)))

/-- C8: a successful `GetStatement` leaves the database unchanged and
returns exactly (as a multiset) the account's transactions within the
optional time bounds, ordered by timestamp descending. -/
theorem statement_filtered_sorted_readonly (aid uid : Nat) (sd ed : Option Nat)
    (db : DB) (txns : List Transaction) (db' : DB)
    (hok : get_account_statement aid uid sd ed db = .ok (txns, db')) :
    db' = db ∧
    txns.Perm (specStatementTxns db aid sd ed) ∧
    txns.Pairwise (fun a b => b.timestamp ≤ a.timestamp) := by
  unfold get_account_statement at hok
  cases hfind : db.accounts.find? (fun a => a.id == aid && a.user_id == uid) with
  | none => rw [hfind] at hok; exact absurd hok (by simp)
  | some acc =>
    rw [hfind] at hok
    cases sd with
    | none =>
      cases ed with
      | none =>
        simp only [Except.ok.injEq, Prod.mk.injEq] at hok
        obtain ⟨htx, hdb⟩ := hok
        refine ⟨hdb.symm, ?_, ?_⟩
        · rw [← htx]
          refine (sortTsDesc_perm _).trans ?_
          simp only [specStatementTxns, Bool.and_true]
          exact List.Perm.refl _
        · rw [← htx]; exact sortTsDesc_pairwise _
      | some e =>
        simp only [Except.ok.injEq, Prod.mk.injEq] at hok
        obtain ⟨htx, hdb⟩ := hok
        refine ⟨hdb.symm, ?_, ?_⟩
        · rw [← htx]
          refine (sortTsDesc_perm _).trans ?_
          rw [filter_chain2]
          simp only [specStatementTxns, Bool.true_and]
          exact List.Perm.refl _
        · rw [← htx]; exact sortTsDesc_pairwise _
    | some s =>
      cases ed with
      | none =>
        simp only [Except.ok.injEq, Prod.mk.injEq] at hok
        obtain ⟨htx, hdb⟩ := hok
        refine ⟨hdb.symm, ?_, ?_⟩
        · rw [← htx]
          refine (sortTsDesc_perm _).trans ?_
          rw [filter_chain2]
          simp only [specStatementTxns, Bool.and_true]
          exact List.Perm.refl _
        · rw [← htx]; exact sortTsDesc_pairwise _
      | some e =>
        simp only [Except.ok.injEq, Prod.mk.injEq] at hok
        obtain ⟨htx, hdb⟩ := hok
        refine ⟨hdb.symm, ?_, ?_⟩
        · rw [← htx]
          refine (sortTsDesc_perm _).trans ?_
          rw [filter_chain3]
          simp only [specStatementTxns]
          exact List.Perm.refl _
        · rw [← htx]; exact sortTsDesc_pairwise _

/-- Instantiation of the C8 theorem: the statement of account 0 from
timestamp 1 onward returns its two matching transactions newest first
and leaves the database unchanged. -/
theorem statement_filtered_sorted_readonly_witness :
    get_account_statement 0 1 (some 1) none dbTx = .ok ([tx 3 0 2, tx 1 0 1], dbTx) ∧
    (dbTx = dbTx ∧
     [tx 3 0 2, tx 1 0 1].Perm (specStatementTxns dbTx 0 (some 1) none) ∧
     [tx 3 0 2, tx 1 0 1].Pairwise (fun a b => b.timestamp ≤ a.timestamp)) :=
  ⟨rfl, statement_filtered_sorted_readonly 0 1 (some 1) none dbTx _ _ rfl⟩

/-! ### C4: a successful transfer moves the amount and creates 3 records -/

/-- Lookup by an id-determined predicate commutes with mapping a function
that does not change the inspected fields. -/
theorem find?_map_invariant (g : Account → Account) (p : Account → Bool)
    (hp : ∀ a, p (g a) = p a) (l : List Account) :
    (l.map g).find? p = (l.find? p).map g := by
  induction l with
  | nil => rfl
  | cons a t ih =>
    rw [List.map_cons, List.find?_cons, List.find?_cons, hp]
    cases hpa : p a
    · simpa [hpa] using ih
    · simp [hpa]

/-- A balance update commutes with lookup by id: the updated list's first
account with a given id is the updated version of the original one. -/
theorem find?_id_updAcc (l : List Account) (aid x : Nat) (f : Rat → Rat) :
    (updAcc l aid f).find? (fun a => a.id == x) =
      (l.find? (fun a => a.id == x)).map
        (fun a => if a.id = aid then { a with balance := f a.balance } else a) := by
  unfold updAcc
  exact find?_map_invariant _ _ (fun a => by by_cases h : a.id = aid <;> simp [h]) l

/-- When account ids are unique (primary key), a successful owner-checked
lookup implies the id-only lookup returns the same account. -/
theorem find?_owner_to_id (accs : List Account) (x u : Nat) (s : Account)
    (hnd : (accs.map (fun a => a.id)).Nodup)
    (h : accs.find? (fun a => a.id == x && a.user_id == u) = some s) :
    accs.find? (fun a => a.id == x) = some s := by
  induction accs with
  | nil => simp at h
  | cons a t ih =>
    rw [List.map_cons, List.nodup_cons] at hnd
    obtain ⟨hna, hnt⟩ := hnd
    rw [List.find?_cons] at h ⊢
    by_cases hx : a.id = x
    · cases hpa : (a.id == x && a.user_id == u) with
      | true =>
        simp only [hpa] at h
        injection h with h'
        subst h'
        simp [hx]
      | false =>
        simp only [hpa] at h
        exfalso
        have hs := List.find?_some h
        have hsmem := List.mem_of_find?_eq_some h
        simp only [Bool.and_eq_true, beq_iff_eq] at hs
        apply hna
        rw [hx, ← hs.1]
        exact List.mem_map_of_mem _ hsmem
    · have h1 : (a.id == x && a.user_id == u) = false := by simp [hx]
      have h2 : (a.id == x) = false := by simp [hx]
      simp only [h1] at h
      simp only [h2]
      exact ih hnt h

/-- C4: a successful `ApplyTransfer` (ids are unique primary keys) is
between two distinct existing accounts; it decreases the source balance
by exactly the amount, increases the destination balance by exactly the
amount, appends exactly one `Transfer` record with the requested fields,
and appends exactly two `Transaction` records — a DEBIT on the source
and a CREDIT on the destination — all carrying the same amount, in one
commit. -/
theorem transfer_moves_amount_and_creates_records (uid : Nat) (t : TransferCreate)
    (db : DB) (tr : Transfer) (db' : DB)
    (hnd : (db.accounts.map (fun a => a.id)).Nodup)
    (hok : post_transfers uid t db = .ok (tr, db')) :
    t.from_account_id ≠ t.to_account_id ∧
    (balanceOf db t.from_account_id).isSome = true ∧
    (balanceOf db t.to_account_id).isSome = true ∧
    balanceOf db' t.from_account_id =
      (balanceOf db t.from_account_id).map (fun b => b - t.amount) ∧
    balanceOf db' t.to_account_id =
      (balanceOf db t.to_account_id).map (fun b => b + t.amount) ∧
    db'.transfers = db.transfers ++ [tr] ∧
    tr.from_account_id = t.from_account_id ∧
    tr.to_account_id = t.to_account_id ∧
    tr.amount = t.amount ∧
    db'.transactions.length = db.transactions.length + 2 ∧
    db'.transactions.take db.transactions.length = db.transactions ∧
    (db'.transactions.drop db.transactions.length).map
        (fun x => (x.account_id, x.transaction_type, x.amount)) =
      [(t.from_account_id, "DEBIT", t.amount), (t.to_account_id, "CREDIT", t.amount)] := by
  unfold post_transfers at hok
  cases hval : validateTransferCreate t with
  | cons m ms =>
    simp only [hval] at hok
    exact absurd hok (by simp)
  | nil =>
    simp only [hval] at hok
    have hne : t.to_account_id ≠ t.from_account_id := by
      intro hcontra
      simp [validateTransferCreate, hcontra] at hval
    unfold create_transfer at hok
    cases hsrc : db.accounts.find?
        (fun a => a.id == t.from_account_id && a.user_id == uid) with
    | none =>
      simp only [hsrc] at hok
      exact absurd hok (by simp)
    | some src =>
      simp only [hsrc] at hok
      cases hdst : db.accounts.find? (fun a => a.id == t.to_account_id) with
      | none =>
        simp only [hdst] at hok
        exact absurd hok (by simp)
      | some dst =>
        simp only [hdst] at hok
        by_cases hbal : src.balance < t.amount
        · simp only [if_pos hbal] at hok
          exact absurd hok (by simp)
        · simp only [if_neg hbal] at hok
          simp only [Except.ok.injEq, Prod.mk.injEq] at hok
          obtain ⟨htr, hdb⟩ := hok
          subst htr
          subst hdb
          have hsrcPred := List.find?_some hsrc
          simp only [Bool.and_eq_true, beq_iff_eq] at hsrcPred
          obtain ⟨hsid, hsuid⟩ := hsrcPred
          have hdid : dst.id = t.to_account_id := by
            have := List.find?_some hdst
            simpa using this
          have hfromid : db.accounts.find? (fun a => a.id == t.from_account_id) =
              some src := find?_owner_to_id _ _ _ _ hnd hsrc
          refine ⟨Ne.symm hne, ?_, ?_, ?_, ?_, rfl, rfl, rfl, rfl, ?_, ?_, ?_⟩
          · simp [balanceOf, hfromid]
          · simp [balanceOf, hdst]
          · simp only [balanceOf]
            rw [find?_id_updAcc, find?_id_updAcc, hfromid]
            simp [hsid, Ne.symm hne]
          · simp only [balanceOf]
            rw [find?_id_updAcc, find?_id_updAcc, hdst]
            simp [hdid, hne]
          · simp [List.length_append]
          · exact List.take_left ..
          · rw [List.drop_left]
            simp [TransactionType.value]

/-- A database with two accounts of user 1: id 0 with balance 100 and id 1
with balance 5. -/
def dbTwoAcc : DB :=
  { DB.empty with
      accounts := [{ id := 0, user_id := 1, account_type := .CHECKING, balance := 100 },
                   { id := 1, user_id := 1, account_type := .SAVINGS, balance := 5 }]
      nextAccountId := 2 }

/-- A transfer request of 30 from account 0 to account 1. -/
def tMove30 : TransferCreate :=
  { from_account_id := 0, to_account_id := 1, amount := 30, description := some "rent" }

/-- Result of posting the transfer of 30. -/
def rMove30 : Except Err (Transfer × DB) := post_transfers 1 tMove30 dbTwoAcc

/-- The transfer record returned by the request (the error fallback is
never hit: the request succeeds). -/
def trMove30 : Transfer :=
  match rMove30 with
  | .ok (tr, _) => tr
  | .error _ =>
    { id := 0, from_account_id := 0, to_account_id := 0, amount := 0,
      description := none, timestamp := 0 }

/-- Database state after the transfer of 30. -/
def dbMove30 : DB := stateAfter dbTwoAcc rMove30

/-- Instantiation of the C4 theorem: transferring 30 from account 0
(balance 100) to account 1 (balance 5) succeeds, moves exactly 30, and
creates the `Transfer` plus the DEBIT/CREDIT `Transaction` pair. -/
theorem transfer_moves_amount_and_creates_records_witness :
    (dbTwoAcc.accounts.map (fun a => a.id)).Nodup ∧
    (tMove30.from_account_id ≠ tMove30.to_account_id ∧
     (balanceOf dbTwoAcc tMove30.from_account_id).isSome = true ∧
     (balanceOf dbTwoAcc tMove30.to_account_id).isSome = true ∧
     balanceOf dbMove30 tMove30.from_account_id =
       (balanceOf dbTwoAcc tMove30.from_account_id).map (fun b => b - tMove30.amount) ∧
     balanceOf dbMove30 tMove30.to_account_id =
       (balanceOf dbTwoAcc tMove30.to_account_id).map (fun b => b + tMove30.amount) ∧
     dbMove30.transfers = dbTwoAcc.transfers ++ [trMove30] ∧
     trMove30.from_account_id = tMove30.from_account_id ∧
     trMove30.to_account_id = tMove30.to_account_id ∧
     trMove30.amount = tMove30.amount ∧
     dbMove30.transactions.length = dbTwoAcc.transactions.length + 2 ∧
     dbMove30.transactions.take dbTwoAcc.transactions.length = dbTwoAcc.transactions ∧
     (dbMove30.transactions.drop dbTwoAcc.transactions.length).map
         (fun x => (x.account_id, x.transaction_type, x.amount)) =
       [(tMove30.from_account_id, "DEBIT", tMove30.amount),
        (tMove30.to_account_id, "CREDIT", tMove30.amount)]) :=
  ⟨by decide,
   transfer_moves_amount_and_creates_records 1 tMove30 dbTwoAcc trMove30 dbMove30
     (by decide) rfl⟩
